import Mathlib

/-!
Shallow embedding of PREvant's `AppsService`
(src/api/src/services/apps_service.rs) and proofs about its desired-state
resolution algorithm (replication from master, application companions),
error propagation and the delete/enumerate operations.

External collaborators (the `Infrastructure` trait, the global `Config`,
`ServiceConfig` from `models::service`, and the companion templating
function) are not part of the embedded source file; they are modelled from
the specification at their interface boundary, as records of functions and
opaque payload types. Opaque error payloads (`failure::Error`,
`TemplateRenderError`, `ConfigError`, `ServiceError`) are modelled as
natural numbers; the code only wraps and transports them.
-/

namespace PREvant

instance {ε α : Type} [DecidableEq ε] [DecidableEq α] : DecidableEq (Except ε α) := fun x y =>
  match x, y with
  | .error a, .error b =>
    if h : a = b then isTrue (by rw [h])
    else isFalse (by intro hh; cases hh; exact h rfl)
  | .error _, .ok _ => isFalse (by intro hh; cases hh)
  | .ok _, .error _ => isFalse (by intro hh; cases hh)
  | .ok a, .ok b =>
    if h : a = b then isTrue (by rw [h])
    else isFalse (by intro hh; cases hh; exact h rfl)

/-- Modelled from the spec: payload of `failure::Error` (opaque to this core). -/
abbrev FailureError := Nat

/-- Modelled from the spec: payload of `handlebars::TemplateRenderError` (opaque). -/
abbrev TemplateRenderError := Nat

/-- Modelled from the spec: payload of `services::config_service::ConfigError` (opaque). -/
abbrev ConfigError := Nat

/-- Modelled from the spec: payload of `models::service::ServiceError` (opaque). -/
abbrev ServiceError := Nat

/-- Modelled from the spec: the global container configuration, opaque to this core. -/
abbrev ContainerConfig := Nat

/-- Modelled from the spec: a realized `Service` record reported by the
infrastructure; opaque to this core, which never inspects it. -/
structure Service where
  id : Nat
deriving DecidableEq

/-- Modelled from the spec (§3): the role marker of a service configuration,
`models::service::ContainerType`. -/
inductive ContainerType where
  | Primary
  | Replica
  | ApplicationCompanion
  | ServiceCompanion
deriving DecidableEq

/-- Modelled from the spec (§3): `models::service::ServiceConfig` — a service
name, a role marker, and opaque runtime parameters (image, environment,
ports, ...) collapsed into one opaque field, since the resolver never
inspects them except for identity comparison by `service_name`. -/
structure ServiceConfig where
  service_name : String
  container_type : ContainerType
  runtime_params : Nat
deriving DecidableEq

/-- `ServiceConfig::get_service_name` — returns the service name. -/
def ServiceConfig.get_service_name (c : ServiceConfig) : String :=
  c.service_name

/-- `ServiceConfig::set_container_type` — modelled functionally: returns the
config with the `container_type` field replaced, everything else unchanged. -/
def ServiceConfig.set_container_type (c : ServiceConfig) (t : ContainerType) : ServiceConfig :=
  { c with container_type := t }

/-- Modelled from the spec: an unresolved application-companion template
(opaque to this core; only the templating function interprets it). -/
structure AppCompanionConfig where
  id : Nat
deriving DecidableEq

/-- `multimap::MultiMap<String, Service>` modelled as an association list of
app name to the vector of services of that app. -/
abbrev MultiMap := List (String × List Service)

/-- `MultiMap::get_vec` — the vector stored for a key, if the key is present. -/
def MultiMap.get_vec (m : MultiMap) (k : String) : Option (List Service) :=
  (m.find? (fun p => p.1 == k)).map Prod.snd

/-- Modelled from the spec (§4.3, §6): the `Infrastructure` trait — the four
operations of the infrastructure port, each fallible with an opaque
`failure::Error`. -/
structure Infrastructure where
  get_services : Except FailureError MultiMap
  get_configs_of_app : String → Except FailureError (List ServiceConfig)
  start_services : String → List ServiceConfig → ContainerConfig → Except FailureError (List Service)
  stop_services : String → Except FailureError (List Service)

/-- Modelled from the spec (§6): the process-wide `Config` — the loaded
application-companion templates (loading may fail with a `ConfigError`) and
the global container configuration. -/
structure Config where
  get_application_companion_configs : Except ConfigError (List AppCompanionConfig)
  get_container_config : ContainerConfig

/-- The `AppsService` struct: the loaded configuration and the infrastructure
backend. -/
structure AppsService where
  config : Config
  infrastructure : Infrastructure

/-- `AppsServiceError` — error cases of the `AppsService`, one variant per
Rust variant, each wrapping its (opaque) cause. -/
inductive AppsServiceError where
  | InvalidServiceModel : ServiceError → AppsServiceError
  | AppNotFound : String → AppsServiceError
  | InfrastructureError : FailureError → AppsServiceError
  | InvalidServerConfiguration : ConfigError → AppsServiceError
  | InvalidTemplateFormat : TemplateRenderError → AppsServiceError
deriving DecidableEq

/-- Modelled from the spec (§4.2): the type of
`apply_templating_for_application_companion` — the companion template
resolver, a pure function of the template, the application name and the
current working set, fallible with a `TemplateRenderError`. It is a free
function in the source; here it is passed as a parameter. -/
abbrev TemplFn :=
  AppCompanionConfig → String → List ServiceConfig → Except TemplateRenderError ServiceConfig

/-- The filter closure of the replication loop (apps_service.rs lines 74-82):
a master config is kept exactly when `service_configs` has no config with the
same service name (`find` returning `None`). -/
def replicate_keep (service_configs : List ServiceConfig) (config : ServiceConfig) : Bool :=
  match service_configs.find? (fun c => c.get_service_name == config.get_service_name) with
  | none => true
  | some _ => false

/-- The replication loop body (apps_service.rs lines 70-87): for each master
config passing the filter, push a clone with its container type set to
`Replica` onto the working set. -/
def replication_loop (service_configs : List ServiceConfig)
    (configs : List ServiceConfig) : List ServiceConfig → List ServiceConfig
  | [] => configs
  | config :: rest =>
    if replicate_keep service_configs config = true then
      replication_loop service_configs
        (configs ++ [config.set_container_type ContainerType.Replica]) rest
    else
      replication_loop service_configs configs rest

/-- The replication step (apps_service.rs lines 69-88): skipped when the app
name is `"master"`; otherwise queries the master's configs (propagating a
backend failure as `InfrastructureError`) and runs the replication loop. -/
def replication_step (s : AppsService) (app_name : String)
    (service_configs configs : List ServiceConfig) :
    Except AppsServiceError (List ServiceConfig) :=
  if "master" ≠ app_name then
    match s.infrastructure.get_configs_of_app "master" with
    | .error e => .error (.InfrastructureError e)
    | .ok master_configs => .ok (replication_loop service_configs configs master_configs)
  else
    .ok configs

/-- The application-companion loop (apps_service.rs lines 90-97): each
template is resolved against the current working set and the result pushed
before the next template is resolved; a resolution failure aborts the loop. -/
def companion_loop (tf : TemplFn) (app_name : String)
    (configs : List ServiceConfig) :
    List AppCompanionConfig → Except TemplateRenderError (List ServiceConfig)
  | [] => .ok configs
  | app_companion_config :: rest =>
    match tf app_companion_config app_name configs with
    | .error e => .error e
    | .ok applied_template_config =>
      companion_loop tf app_name (configs ++ [applied_template_config]) rest

/-- The desired-state computation of `create_or_update` (apps_service.rs
lines 67-97): the working set starts as a clone of `service_configs`, is
extended by the replication step, then by the companion loop; the value is
the list handed to `start_services`. Config-load failure becomes
`InvalidServerConfiguration`, template failure `InvalidTemplateFormat`. -/
def resolved_set (tf : TemplFn) (s : AppsService) (app_name : String)
    (service_configs : List ServiceConfig) :
    Except AppsServiceError (List ServiceConfig) :=
  match replication_step s app_name service_configs service_configs with
  | .error e => .error e
  | .ok configs =>
    match s.config.get_application_companion_configs with
    | .error e => .error (.InvalidServerConfiguration e)
    | .ok templates =>
      match companion_loop tf app_name configs templates with
      | .error e => .error (.InvalidTemplateFormat e)
      | .ok final => .ok final

/-- `AppsService::create_or_update` (apps_service.rs lines 62-106): computes
the resolved set and delegates it to the infrastructure's `start_services`,
wrapping a backend failure as `InfrastructureError`. -/
def AppsService.create_or_update (s : AppsService) (tf : TemplFn) (app_name : String)
    (service_configs : List ServiceConfig) : Except AppsServiceError (List Service) :=
  match resolved_set tf s app_name service_configs with
  | .error e => .error e
  | .ok configs =>
    match s.infrastructure.start_services app_name configs s.config.get_container_config with
    | .error e => .error (.InfrastructureError e)
    | .ok services => .ok services

/-- `AppsService::get_apps` (apps_service.rs lines 52-54): pure passthrough
of the infrastructure's `get_services`, wrapping a failure as
`InfrastructureError`. -/
def AppsService.get_apps (s : AppsService) : Except AppsServiceError MultiMap :=
  match s.infrastructure.get_services with
  | .error e => .error (.InfrastructureError e)
  | .ok m => .ok m

/-- `AppsService::delete_app` (apps_service.rs lines 109-114): queries the
running services; `AppNotFound` when the map has no entry for `app_name`,
otherwise delegates to `stop_services`. -/
def AppsService.delete_app (s : AppsService) (app_name : String) :
    Except AppsServiceError (List Service) :=
  match s.infrastructure.get_services with
  | .error e => .error (.InfrastructureError e)
  | .ok m =>
    match MultiMap.get_vec m app_name with
    | none => .error (.AppNotFound app_name)
    | some _ =>
      match s.infrastructure.stop_services app_name with
      | .error e => .error (.InfrastructureError e)
      | .ok services => .ok services

/-- The service names of a list of configs, in order. -/
def names (configs : List ServiceConfig) : List String :=
  configs.map ServiceConfig.get_service_name

/-- The semantic reading of the filter closure: a master config passes the
filter iff its service name does not occur among the caller's names. -/
theorem replicate_keep_iff (service_configs : List ServiceConfig) (c : ServiceConfig) :
    replicate_keep service_configs c = true ↔
      c.get_service_name ∉ names service_configs := by
  unfold replicate_keep
  cases hfind : service_configs.find? (fun x => x.get_service_name == c.get_service_name) with
  | none =>
    rw [List.find?_eq_none] at hfind
    simp only [true_iff]
    intro hmem
    rcases List.mem_map.mp hmem with ⟨x, hx, hname⟩
    exact hfind x hx (by simpa using hname)
  | some x =>
    have hx := List.find?_some hfind
    have hmemx := List.mem_of_find?_eq_some hfind
    simp only [Bool.false_eq_true, false_iff, not_not, names]
    exact List.mem_map.mpr ⟨x, hmemx, by simpa using hx⟩

/-- Closed form of the replication loop: it appends to the working set, in
master-query order, a `Replica`-marked clone of every master config that
passes the filter. -/
theorem replication_loop_eq (service_configs configs master : List ServiceConfig) :
    replication_loop service_configs configs master =
      configs ++ (master.filter (replicate_keep service_configs)).map
        (fun c => c.set_container_type ContainerType.Replica) := by
  induction master generalizing configs with
  | nil => simp [replication_loop]
  | cons c rest ih =>
    by_cases h : replicate_keep service_configs c = true
    · rw [replication_loop, if_pos h, ih, List.filter_cons_of_pos h]
      simp
    · rw [replication_loop, if_neg h, ih,
        List.filter_cons_of_neg (by simpa using h)]

/-- The filter closure agrees with the semantic name-absence predicate, so
the filtered list can be written either way. -/
theorem filter_replicate_keep (service_configs master : List ServiceConfig) :
    master.filter (replicate_keep service_configs) =
      master.filter (fun c => decide (c.get_service_name ∉ names service_configs)) := by
  apply List.filter_congr
  intro c _
  by_cases h : c.get_service_name ∈ names service_configs
  · simp [h, (replicate_keep_iff service_configs c).not_left.mpr (by simpa using h)]
  · simp [h, (replicate_keep_iff service_configs c).mpr h]

/-- Setting the container type leaves the service name unchanged. -/
theorem set_container_type_name (c : ServiceConfig) (t : ContainerType) :
    (c.set_container_type t).get_service_name = c.get_service_name := rfl

/-- Names distribute over list append. -/
theorem names_append (l1 l2 : List ServiceConfig) :
    names (l1 ++ l2) = names l1 ++ names l2 := by
  simp [names]

/-- The names of the replica clones are the names of the filtered master
configs. -/
theorem names_replicas (l : List ServiceConfig) :
    names (l.map (fun c => c.set_container_type ContainerType.Replica)) = names l := by
  unfold names
  rw [List.map_map]
  congr 1

/-- Closed form of the replication step for a non-master application whose
master query succeeds. -/
theorem replication_step_eq (s : AppsService) (app_name : String)
    (service_configs configs master_configs : List ServiceConfig)
    (happ : app_name ≠ "master")
    (hmaster : s.infrastructure.get_configs_of_app "master" = .ok master_configs) :
    replication_step s app_name service_configs configs =
      .ok (configs ++ (master_configs.filter (replicate_keep service_configs)).map
        (fun c => c.set_container_type ContainerType.Replica)) := by
  unfold replication_step
  rw [if_pos (Ne.symm happ), hmaster]
  show Except.ok (replication_loop service_configs configs master_configs) = _
  rw [replication_loop_eq]

/-- A successful companion loop appends exactly one resolved config per
template, in load order, each resolved against the working set extended by
all earlier resolutions. -/
theorem companion_loop_ok_shape (tf : TemplFn) (app_name : String) :
    ∀ (templates : List AppCompanionConfig) (configs final : List ServiceConfig),
      companion_loop tf app_name configs templates = .ok final →
      ∃ rs : List ServiceConfig,
        final = configs ++ rs ∧ rs.length = templates.length ∧
        ∀ i (hi : i < templates.length) (hj : i < rs.length),
          tf templates[i] app_name (configs ++ rs.take i) = .ok rs[i] := by
  intro templates
  induction templates with
  | nil =>
    intro configs final h
    unfold companion_loop at h
    cases h
    exact ⟨[], by simp, by simp, by intro i hi hj; exact absurd hi (by simp)⟩
  | cons t rest ih =>
    intro configs final h
    unfold companion_loop at h
    cases htf : tf t app_name configs with
    | error e => rw [htf] at h; cases h
    | ok r =>
      rw [htf] at h
      obtain ⟨rs, hfin, hlen, hidx⟩ := ih (configs ++ [r]) final h
      refine ⟨r :: rs, by simpa using hfin, by simpa using hlen, ?_⟩
      intro i hi hj
      cases i with
      | zero => simpa using htf
      | succ j =>
        have hj2 : j < rs.length := by simpa using hj
        have hi2 : j < rest.length := by simpa using hi
        have hstep := hidx j hi2 hj2
        simpa [List.take_succ_cons, List.append_assoc] using hstep

/-- If every successful template resolution produces a name absent from its
context, the companion loop preserves name uniqueness. -/
theorem companion_loop_nodup (tf : TemplFn) (app_name : String)
    (hfresh : ∀ t ctx r, tf t app_name ctx = .ok r → r.get_service_name ∉ names ctx) :
    ∀ (templates : List AppCompanionConfig) (configs final : List ServiceConfig),
      companion_loop tf app_name configs templates = .ok final →
      (names configs).Nodup → (names final).Nodup := by
  intro templates
  induction templates with
  | nil =>
    intro configs final h hn
    unfold companion_loop at h
    cases h
    exact hn
  | cons t rest ih =>
    intro configs final h hn
    unfold companion_loop at h
    cases htf : tf t app_name configs with
    | error e => rw [htf] at h; cases h
    | ok r =>
      rw [htf] at h
      refine ih (configs ++ [r]) final h ?_
      rw [names_append]
      rw [List.nodup_append]
      refine ⟨hn, by simp [names], ?_⟩
      intro a ha hb
      have hb2 : a = r.get_service_name := by simpa [names] using hb
      exact hfresh t configs r htf (hb2 ▸ ha)

/-- A list of configs and the replica clones derived from a master list with
unique names have jointly unique names: the filter removes every master
config whose name occurs among the callers' names. -/
theorem replication_names_nodup (service_configs master_configs : List ServiceConfig)
    (h1 : (names service_configs).Nodup) (h2 : (names master_configs).Nodup) :
    (names (service_configs ++
      (master_configs.filter (replicate_keep service_configs)).map
        (fun c => c.set_container_type ContainerType.Replica))).Nodup := by
  rw [names_append, names_replicas, List.nodup_append]
  refine ⟨h1, ?_, ?_⟩
  · exact h2.sublist ((master_configs.filter_sublist).map ServiceConfig.get_service_name)
  · intro a ha hb
    rcases List.mem_map.mp hb with ⟨c, hc, hname⟩
    have hkeep := (List.mem_filter.mp hc).2
    exact (replicate_keep_iff service_configs c).mp hkeep (hname ▸ ha)

/-- Sum of the lengths of a list of strings. -/
def sum_name_lengths (l : List String) : Nat :=
  l.foldr (fun s n => s.length + n) 0

theorem length_le_sum_of_mem {l : List String} {s : String} (h : s ∈ l) :
    s.length ≤ sum_name_lengths l := by
  induction l with
  | nil => cases h
  | cons a rest ih =>
    rcases List.mem_cons.mp h with h1 | h2
    · subst h1
      show s.length ≤ s.length + sum_name_lengths rest
      omega
    · have := ih h2
      show s.length ≤ a.length + sum_name_lengths rest
      omega

/-- A string strictly longer than every member of `l`, hence not in `l`. -/
def fresh_name (l : List String) : String :=
  String.mk (List.replicate (sum_name_lengths l + 1) 'x')

theorem fresh_name_length (l : List String) :
    (fresh_name l).length = sum_name_lengths l + 1 := by
  simp [fresh_name, String.length]

theorem fresh_name_not_mem (l : List String) : fresh_name l ∉ l := by
  intro h
  have h1 := length_le_sum_of_mem h
  rw [fresh_name_length] at h1
  omega

/-- A templating function whose resolved companion always bears a name fresh
for its context. -/
def tf_fresh : TemplFn := fun _ _ ctx =>
  .ok ⟨fresh_name (names ctx), ContainerType.ApplicationCompanion, 0⟩

theorem tf_fresh_spec (app_name : String) :
    ∀ t ctx r, tf_fresh t app_name ctx = .ok r → r.get_service_name ∉ names ctx := by
  intro t ctx r h
  cases h
  exact fresh_name_not_mem (names ctx)

/-- A templating function that always fails. -/
def tf0 : TemplFn := fun _ _ _ => .error 0

def web : ServiceConfig := ⟨"web", ContainerType.Primary, 0⟩

def db : ServiceConfig := ⟨"db", ContainerType.Primary, 1⟩

/-- A caller config overriding the master service of the same name. -/
def web_override : ServiceConfig := ⟨"web", ContainerType.Primary, 9⟩

/-- Example infrastructure: master runs `web` and `db`; all queries succeed. -/
def infraA : Infrastructure :=
  { get_services := .ok [("master", [⟨0⟩])]
    get_configs_of_app := fun n => if n = "master" then .ok [web, db] else .ok []
    start_services := fun _ _ _ => .ok [⟨1⟩]
    stop_services := fun _ => .ok [⟨2⟩] }

/-- Example config with one loaded companion template. -/
def configA : Config :=
  { get_application_companion_configs := .ok [⟨0⟩]
    get_container_config := 0 }

def svcA : AppsService := ⟨configA, infraA⟩

/-- Infrastructure whose queries all fail. -/
def infraB : Infrastructure :=
  { get_services := .error 5
    get_configs_of_app := fun _ => .error 7
    start_services := fun _ _ _ => .ok []
    stop_services := fun _ => .error 6 }

def svcB : AppsService := ⟨configA, infraB⟩

/-- Infrastructure reporting two master configs with the same name. -/
def infraC : Infrastructure :=
  { get_services := .ok []
    get_configs_of_app := fun _ =>
      .ok [⟨"a", ContainerType.Primary, 0⟩, ⟨"a", ContainerType.Primary, 1⟩]
    start_services := fun _ _ _ => .ok []
    stop_services := fun _ => .ok [] }

/-- Config with no companion templates loaded. -/
def configC : Config := ⟨.ok [], 0⟩

def svcC : AppsService := ⟨configC, infraC⟩

/-- An empty backend: no running services at all. -/
def infraE : Infrastructure :=
  ⟨.ok [], fun _ => .ok [], fun _ _ _ => .ok [], fun _ => .ok []⟩

def svcE : AppsService := ⟨configC, infraE⟩

/-- A failed resolution is returned unchanged by `create_or_update`. -/
theorem create_or_update_resolution_error (s : AppsService) (tf : TemplFn)
    (app_name : String) (service_configs : List ServiceConfig) (err : AppsServiceError)
    (h : resolved_set tf s app_name service_configs = .error err) :
    s.create_or_update tf app_name service_configs = .error err := by
  unfold AppsService.create_or_update
  rw [h]

/-- The resolved set only depends on the master query result and the loaded
templates, not on the other backend operations. -/
theorem resolved_set_congr (s1 s2 : AppsService) (tf : TemplFn)
    (app_name : String) (service_configs : List ServiceConfig)
    (hmaster : s1.infrastructure.get_configs_of_app "master" =
      s2.infrastructure.get_configs_of_app "master")
    (htempl : s1.config.get_application_companion_configs =
      s2.config.get_application_companion_configs) :
    resolved_set tf s1 app_name service_configs =
      resolved_set tf s2 app_name service_configs := by
  unfold resolved_set replication_step
  rw [hmaster, htempl]

/-- A failing master query for a non-master app makes resolution fail with
`InfrastructureError`. -/
theorem resolved_set_infra_error (s : AppsService) (tf : TemplFn)
    (app_name : String) (service_configs : List ServiceConfig) (e : FailureError)
    (happ : app_name ≠ "master")
    (hfail : s.infrastructure.get_configs_of_app "master" = .error e) :
    resolved_set tf s app_name service_configs =
      .error (.InfrastructureError e) := by
  unfold resolved_set replication_step
  rw [if_pos (Ne.symm happ), hfail]

/-- A failing companion loop makes resolution fail with
`InvalidTemplateFormat`. -/
theorem resolved_set_template_error (s : AppsService) (tf : TemplFn)
    (app_name : String) (service_configs configs : List ServiceConfig)
    (templates : List AppCompanionConfig) (e : TemplateRenderError)
    (hrep : replication_step s app_name service_configs service_configs = .ok configs)
    (htempl : s.config.get_application_companion_configs = .ok templates)
    (hfail : companion_loop tf app_name configs templates = .error e) :
    resolved_set tf s app_name service_configs =
      .error (.InvalidTemplateFormat e) := by
  unfold resolved_set
  rw [hrep, htempl]
  show (match companion_loop tf app_name configs templates with
    | .error e => Except.error (AppsServiceError.InvalidTemplateFormat e)
    | .ok final => Except.ok final) = _
  rw [hfail]

/-- Inversion of a successful resolution into its three stages. -/
theorem resolved_set_ok_inv (s : AppsService) (tf : TemplFn)
    (app_name : String) (service_configs final : List ServiceConfig)
    (hok : resolved_set tf s app_name service_configs = .ok final) :
    ∃ configs templates,
      replication_step s app_name service_configs service_configs = .ok configs ∧
      s.config.get_application_companion_configs = .ok templates ∧
      companion_loop tf app_name configs templates = .ok final := by
  unfold resolved_set at hok
  cases h1 : replication_step s app_name service_configs service_configs with
  | error e => rw [h1] at hok; cases hok
  | ok configs =>
    rw [h1] at hok
    cases h2 : s.config.get_application_companion_configs with
    | error e => rw [h2] at hok; cases hok
    | ok templates =>
      rw [h2] at hok
      have hok2 : (match companion_loop tf app_name configs templates with
          | .error e => Except.error (AppsServiceError.InvalidTemplateFormat e)
          | .ok fin => Except.ok fin) = Except.ok final := hok
      cases h3 : companion_loop tf app_name configs templates with
      | error e => rw [h3] at hok2; cases hok2
      | ok fin =>
        rw [h3] at hok2
        cases hok2
        exact ⟨configs, templates, rfl, rfl, h3⟩

/-- C5: for a non-master application, the working set after the replication
step is the caller's list first, unaltered and in its given order, followed
by the Replica clones of exactly those master configs whose service name is
not taken by a caller config, in master-query iteration order; a master
config whose name duplicates a caller entry is dropped and the caller entry
kept. -/
theorem C5_replication_order_and_precedence (s : AppsService) (app_name : String)
    (service_configs master_configs out : List ServiceConfig)
    (happ : app_name ≠ "master")
    (hmaster : s.infrastructure.get_configs_of_app "master" = .ok master_configs)
    (hstep : replication_step s app_name service_configs service_configs = .ok out) :
    out = service_configs ++
      (master_configs.filter
        (fun c => decide (c.get_service_name ∉ names service_configs))).map
        (fun c => c.set_container_type ContainerType.Replica) := by
  rw [replication_step_eq s app_name service_configs service_configs master_configs
    happ hmaster] at hstep
  cases hstep
  rw [filter_replicate_keep]

/-- Witness for C5: master runs `web` and `db`, the caller overrides `web`;
the working set is the caller's `web` followed by `db` marked Replica. -/
theorem C5_witness :
    replication_step svcA "review" [web_override] [web_override] =
        .ok [web_override, db.set_container_type ContainerType.Replica] ∧
      [web_override, db.set_container_type ContainerType.Replica] =
        [web_override] ++
          ([web, db].filter
            (fun c => decide (c.get_service_name ∉ names [web_override]))).map
            (fun c => c.set_container_type ContainerType.Replica) :=
  ⟨by decide,
    C5_replication_order_and_precedence svcA "review" [web_override] [web, db]
      [web_override, db.set_container_type ContainerType.Replica]
      (by decide) (by decide) (by decide)⟩

/-- C2: for the application named `"master"` the replication step is skipped
entirely — the working set passes through unchanged — and the resolved set
does not depend on what `get_configs_of_app` would return. -/
theorem C2_master_never_replicates (s : AppsService) (tf : TemplFn)
    (service_configs : List ServiceConfig) :
    replication_step s "master" service_configs service_configs = .ok service_configs ∧
    ∀ g, resolved_set tf
        { s with infrastructure := { s.infrastructure with get_configs_of_app := g } }
        "master" service_configs =
      resolved_set tf s "master" service_configs := by
  constructor
  · unfold replication_step
    rw [if_neg (by simp)]
  · intro g
    unfold resolved_set replication_step
    rw [if_neg (by simp), if_neg (by simp)]

/-- C7: `get_apps` is a pure passthrough of `get_services` — it returns the
backend's mapping exactly on success (an empty backend yields an empty
mapping, not an error) and fails with `InfrastructureError` exactly when the
backend query fails. -/
theorem C7_get_apps_passthrough (s : AppsService) :
    (∀ m : MultiMap, s.get_apps = .ok m ↔ s.infrastructure.get_services = .ok m) ∧
    (∀ err, s.get_apps = .error err ↔
      ∃ e, s.infrastructure.get_services = .error e ∧
        err = AppsServiceError.InfrastructureError e) := by
  cases hg : s.infrastructure.get_services with
  | error e =>
    refine ⟨fun m => ?_, fun err => ?_⟩ <;>
      simp [AppsService.get_apps, hg, eq_comm]
  | ok m0 =>
    refine ⟨fun m => ?_, fun err => ?_⟩ <;>
      simp [AppsService.get_apps, hg]

/-- Witness for C7 on the empty backend: an empty mapping, not an error. -/
theorem C7_witness : svcE.get_apps = .ok [] :=
  ((C7_get_apps_passthrough svcE).1 []).mpr rfl

/-- C8: desired-state resolution is deterministic — two service instances
agreeing on the master query result and on the loaded templates compute the
same resolved set for the same templating function, application name and
caller configs, whatever their other backend operations do. -/
theorem C8_resolution_deterministic (s1 s2 : AppsService) (tf : TemplFn)
    (app_name : String) (service_configs : List ServiceConfig)
    (hmaster : s1.infrastructure.get_configs_of_app "master" =
      s2.infrastructure.get_configs_of_app "master")
    (htempl : s1.config.get_application_companion_configs =
      s2.config.get_application_companion_configs) :
    resolved_set tf s1 app_name service_configs =
      resolved_set tf s2 app_name service_configs := by
  unfold resolved_set replication_step
  rw [hmaster, htempl]

/-- Witness for C8: the same resolution on two backends differing in their
start operation. -/
theorem C8_witness :
    resolved_set tf0 svcA "x" [] =
      resolved_set tf0
        ⟨configA, { infraA with start_services := fun _ _ _ => .error 3 }⟩ "x" [] :=
  C8_resolution_deterministic svcA
    ⟨configA, { infraA with start_services := fun _ _ _ => .error 3 }⟩
    tf0 "x" [] rfl rfl

/-- A templating function resolving every template to a config named `"a"`. -/
def tf_a : TemplFn := fun _ _ _ => .ok ⟨"a", ContainerType.ApplicationCompanion, 0⟩

/-- A backend with an empty master, paired with one loaded template. -/
def svcD : AppsService := ⟨configA, infraE⟩

/-- Counterexample to C1 as stated: the caller list has distinct names and
the app is not master, yet the list handed to `start_services` carries a
duplicate service name — first, when the backend reports two master configs
sharing one name, both are replicated; second, when a companion template
resolves to a name already taken by a caller config, it is appended
regardless. -/
theorem C1_counterexample :
    "app" ≠ "master" ∧
    (names ([] : List ServiceConfig)).Nodup ∧
    resolved_set tf0 svcC "app" [] =
      .ok [⟨"a", ContainerType.Replica, 0⟩, ⟨"a", ContainerType.Replica, 1⟩] ∧
    ¬ (names [⟨"a", ContainerType.Replica, 0⟩,
        ⟨"a", ContainerType.Replica, 1⟩]).Nodup ∧
    (names [(⟨"a", ContainerType.Primary, 0⟩ : ServiceConfig)]).Nodup ∧
    resolved_set tf_a svcD "app" [⟨"a", ContainerType.Primary, 0⟩] =
      .ok [⟨"a", ContainerType.Primary, 0⟩,
        ⟨"a", ContainerType.ApplicationCompanion, 0⟩] ∧
    ¬ (names [⟨"a", ContainerType.Primary, 0⟩,
        ⟨"a", ContainerType.ApplicationCompanion, 0⟩]).Nodup := by
  refine ⟨by decide, by decide, by decide, by decide, by decide, by decide, by decide⟩

/-- C1 (amended): for a non-master app whose caller configs have distinct
names, when additionally the master's reported configs have pairwise
distinct names and every successful template resolution yields a name fresh
for its context, the resolved set handed to `start_services` is exactly the
caller's entries unchanged, then one Replica clone of each master config
whose name is not taken by a caller entry, then one resolved config per
loaded companion template — and its service names are pairwise distinct. -/
theorem C1_resolved_set_exact (s : AppsService) (tf : TemplFn) (app_name : String)
    (service_configs master_configs final : List ServiceConfig)
    (templates : List AppCompanionConfig)
    (happ : app_name ≠ "master")
    (hnodup : (names service_configs).Nodup)
    (hmaster : s.infrastructure.get_configs_of_app "master" = .ok master_configs)
    (hmnodup : (names master_configs).Nodup)
    (htempl : s.config.get_application_companion_configs = .ok templates)
    (hfresh : ∀ t ctx r, tf t app_name ctx = .ok r → r.get_service_name ∉ names ctx)
    (hok : resolved_set tf s app_name service_configs = .ok final) :
    ∃ companions : List ServiceConfig,
      final = service_configs ++
        (master_configs.filter
          (fun c => decide (c.get_service_name ∉ names service_configs))).map
          (fun c => c.set_container_type ContainerType.Replica) ++ companions ∧
      companions.length = templates.length ∧
      (names final).Nodup := by
  obtain ⟨configs, templates0, h1, h2, h3⟩ :=
    resolved_set_ok_inv s tf app_name service_configs final hok
  rw [htempl] at h2
  cases h2
  rw [replication_step_eq s app_name service_configs service_configs master_configs
    happ hmaster] at h1
  cases h1
  obtain ⟨rs, hfin, hlen, _⟩ :=
    companion_loop_ok_shape tf app_name templates _ final h3
  refine ⟨rs, ?_, hlen, ?_⟩
  · rw [hfin, filter_replicate_keep]
  · exact companion_loop_nodup tf app_name hfresh templates _ final h3
      (replication_names_nodup service_configs master_configs hnodup hmnodup)

/-- Witness for C1: master runs `web` and `db`, the caller overrides `web`,
one companion template is loaded and resolves freshly; the resolved set is
the caller's `web`, then `db` as Replica, then the companion, with distinct
names. -/
theorem C1_witness :
    ∃ companions : List ServiceConfig,
      [web_override, db.set_container_type ContainerType.Replica,
          ⟨"xxxxxx", ContainerType.ApplicationCompanion, 0⟩] =
        [web_override] ++
          ([web, db].filter
            (fun c => decide (c.get_service_name ∉ names [web_override]))).map
            (fun c => c.set_container_type ContainerType.Replica) ++ companions ∧
      companions.length = ([⟨0⟩] : List AppCompanionConfig).length ∧
      (names [web_override, db.set_container_type ContainerType.Replica,
        ⟨"xxxxxx", ContainerType.ApplicationCompanion, 0⟩]).Nodup :=
  C1_resolved_set_exact svcA tf_fresh "review" [web_override] [web, db]
    [web_override, db.set_container_type ContainerType.Replica,
      ⟨"xxxxxx", ContainerType.ApplicationCompanion, 0⟩]
    [⟨0⟩] (by decide) (by decide) (by decide) (by decide) rfl
    (tf_fresh_spec "review") (by decide)

/-- C3: if the companion loop fails with a template error, `create_or_update`
returns `InvalidTemplateFormat` wrapping it — for every possible start
operation, so the infrastructure start is never invoked. -/
theorem C3_template_failure_aborts (s : AppsService) (tf : TemplFn)
    (app_name : String) (service_configs configs : List ServiceConfig)
    (templates : List AppCompanionConfig) (e : TemplateRenderError)
    (start : String → List ServiceConfig → ContainerConfig → Except FailureError (List Service))
    (hrep : replication_step s app_name service_configs service_configs = .ok configs)
    (htempl : s.config.get_application_companion_configs = .ok templates)
    (hfail : companion_loop tf app_name configs templates = .error e) :
    AppsService.create_or_update
      { s with infrastructure := { s.infrastructure with start_services := start } }
      tf app_name service_configs =
      .error (.InvalidTemplateFormat e) := by
  apply create_or_update_resolution_error
  rw [resolved_set_congr
    { s with infrastructure := { s.infrastructure with start_services := start } }
    s tf app_name service_configs rfl rfl]
  exact resolved_set_template_error s tf app_name service_configs configs templates e
    hrep htempl hfail

/-- Witness for C3: with one loaded template and an always-failing resolver
the call errors with `InvalidTemplateFormat` even though the start operation
would have succeeded. -/
theorem C3_witness :
    AppsService.create_or_update
      ⟨configA, { infraA with start_services := fun _ _ _ => .ok [⟨9⟩] }⟩
      tf0 "rev" [] = .error (.InvalidTemplateFormat 0) :=
  C3_template_failure_aborts svcA tf0 "rev" []
    [web.set_container_type ContainerType.Replica,
      db.set_container_type ContainerType.Replica]
    [⟨0⟩] 0 (fun _ _ _ => .ok [⟨9⟩]) (by decide) rfl (by decide)

/-- C9: if the master query fails during resolution for a non-master app,
`create_or_update` returns `InfrastructureError` wrapping that failure — for
every possible start operation, so no backend mutation is attempted. -/
theorem C9_master_query_failure_aborts (s : AppsService) (tf : TemplFn)
    (app_name : String) (service_configs : List ServiceConfig) (e : FailureError)
    (start : String → List ServiceConfig → ContainerConfig → Except FailureError (List Service))
    (happ : app_name ≠ "master")
    (hfail : s.infrastructure.get_configs_of_app "master" = .error e) :
    AppsService.create_or_update
      { s with infrastructure := { s.infrastructure with start_services := start } }
      tf app_name service_configs =
      .error (.InfrastructureError e) := by
  apply create_or_update_resolution_error
  rw [resolved_set_congr
    { s with infrastructure := { s.infrastructure with start_services := start } }
    s tf app_name service_configs rfl rfl]
  exact resolved_set_infra_error s tf app_name service_configs e happ hfail

/-- Witness for C9: a backend whose master query fails makes the call return
`InfrastructureError` although its start operation would have succeeded. -/
theorem C9_witness :
    AppsService.create_or_update
      ⟨configA, { infraB with start_services := fun _ _ _ => .ok [⟨9⟩] }⟩
      tf0 "rev" [] = .error (.InfrastructureError 7) :=
  C9_master_query_failure_aborts svcB tf0 "rev" [] 7
    (fun _ _ _ => .ok [⟨9⟩]) (by decide) rfl

/-- When the services query succeeds, `delete_app` is determined by the
entry lookup and the stop operation. -/
theorem delete_app_eq (s : AppsService) (app_name : String) (m : MultiMap)
    (hget : s.infrastructure.get_services = .ok m) :
    s.delete_app app_name =
      match MultiMap.get_vec m app_name with
      | none => .error (.AppNotFound app_name)
      | some _ =>
        match s.infrastructure.stop_services app_name with
        | .error e => .error (.InfrastructureError e)
        | .ok services => .ok services := by
  unfold AppsService.delete_app
  rw [hget]

/-- C4: when the services query succeeds, `delete_app` returns `AppNotFound`
exactly when the reported mapping has no entry for the app name; when an
entry exists, the call is the (wrapped) result of `stop_services`. -/
theorem C4_delete_not_found_iff (s : AppsService) (app_name : String) (m : MultiMap)
    (hget : s.infrastructure.get_services = .ok m) :
    (s.delete_app app_name = .error (.AppNotFound app_name) ↔
      MultiMap.get_vec m app_name = none) ∧
    (MultiMap.get_vec m app_name ≠ none →
      s.delete_app app_name =
        match s.infrastructure.stop_services app_name with
        | .error e => .error (.InfrastructureError e)
        | .ok services => .ok services) := by
  rw [delete_app_eq s app_name m hget]
  cases hv : MultiMap.get_vec m app_name with
  | none =>
    refine ⟨by simp, fun h => absurd rfl h⟩
  | some v =>
    refine ⟨⟨fun h => ?_, fun h => Option.noConfusion h⟩, fun _ => rfl⟩
    cases hst : s.infrastructure.stop_services app_name with
    | error e =>
      rw [hst] at h
      simp at h
    | ok l =>
      rw [hst] at h
      simp at h

/-- Witness for C4: the backend reports only an entry for master, so deleting
an unknown app name returns `AppNotFound`. -/
theorem C4_witness :
    svcA.delete_app "nope" = .error (.AppNotFound "nope") :=
  ((C4_delete_not_found_iff svcA "nope" [("master", [⟨0⟩])] rfl).1).mpr (by decide)

/-- C6: a successful companion pass appends exactly one resolved config per
template, in load order, and each template is resolved against the working
set extended with the outputs of all earlier templates. -/
theorem C6_companion_load_order (tf : TemplFn) (app_name : String)
    (templates : List AppCompanionConfig) (configs final : List ServiceConfig)
    (hok : companion_loop tf app_name configs templates = .ok final) :
    ∃ rs : List ServiceConfig,
      final = configs ++ rs ∧ rs.length = templates.length ∧
      ∀ i (hi : i < templates.length) (hj : i < rs.length),
        tf templates[i] app_name (configs ++ rs.take i) = .ok rs[i] :=
  companion_loop_ok_shape tf app_name templates configs final hok

/-- Witness for C6: two templates resolved with the fresh-name resolver; the
second sees the output of the first in its context. -/
theorem C6_witness :
    companion_loop tf_fresh "app" [] [⟨0⟩, ⟨1⟩] =
        .ok [⟨"x", ContainerType.ApplicationCompanion, 0⟩,
          ⟨"xx", ContainerType.ApplicationCompanion, 0⟩] ∧
      ∃ rs : List ServiceConfig,
        [(⟨"x", ContainerType.ApplicationCompanion, 0⟩ : ServiceConfig),
            ⟨"xx", ContainerType.ApplicationCompanion, 0⟩] = [] ++ rs ∧
          rs.length = ([⟨0⟩, ⟨1⟩] : List AppCompanionConfig).length ∧
          ∀ i (hi : i < ([⟨0⟩, ⟨1⟩] : List AppCompanionConfig).length)
            (hj : i < rs.length),
            tf_fresh ([⟨0⟩, ⟨1⟩] : List AppCompanionConfig)[i] "app"
              ([] ++ rs.take i) = .ok rs[i] :=
  ⟨by decide,
    C6_companion_load_order tf_fresh "app" [⟨0⟩, ⟨1⟩] []
      [⟨"x", ContainerType.ApplicationCompanion, 0⟩,
        ⟨"xx", ContainerType.ApplicationCompanion, 0⟩]
      (by decide)⟩

/-- C10: each replica appended by the replication step is the corresponding
master config with only its container type changed to Replica; its service
name and opaque runtime parameters are carried over unchanged. -/
theorem C10_replica_frame (s : AppsService) (app_name : String)
    (service_configs master_configs out : List ServiceConfig) (r : ServiceConfig)
    (hmaster : s.infrastructure.get_configs_of_app "master" = .ok master_configs)
    (hstep : replication_step s app_name service_configs service_configs = .ok out)
    (hr : r ∈ out.drop service_configs.length) :
    ∃ c ∈ master_configs,
      r = c.set_container_type ContainerType.Replica ∧
      r.service_name = c.service_name ∧
      r.runtime_params = c.runtime_params ∧
      r.container_type = ContainerType.Replica := by
  by_cases happ : app_name = "master"
  · subst happ
    unfold replication_step at hstep
    rw [if_neg (by simp)] at hstep
    cases hstep
    rw [List.drop_length] at hr
    cases hr
  · rw [replication_step_eq s app_name service_configs service_configs master_configs
      happ hmaster] at hstep
    cases hstep
    rw [List.drop_left] at hr
    rcases List.mem_map.mp hr with ⟨c, hc, hrc⟩
    subst hrc
    exact ⟨c, (List.mem_filter.mp hc).1, rfl, rfl, rfl, rfl⟩

/-- Witness for C10: the replica of `web` derives from master's `web` with
only the container type changed. -/
theorem C10_witness :
    ∃ c ∈ [web, db],
      web.set_container_type ContainerType.Replica =
        c.set_container_type ContainerType.Replica ∧
      (web.set_container_type ContainerType.Replica).service_name = c.service_name ∧
      (web.set_container_type ContainerType.Replica).runtime_params = c.runtime_params ∧
      (web.set_container_type ContainerType.Replica).container_type =
        ContainerType.Replica :=
  C10_replica_frame svcA "review" [] [web, db]
    [web.set_container_type ContainerType.Replica,
      db.set_container_type ContainerType.Replica]
    (web.set_container_type ContainerType.Replica)
    (by decide) (by decide) (by decide)

end PREvant
